import Mathlib

/-!
Verification of the Network-monitor repository: a shallow embedding of the
STOMP client (`stomp-client.h`) and of the Live Transport Network Monitor
(`network-monitor.h`), with theorems settling the specified behavior of
message dispatch, subscription management, close semantics, error recording
and null-handler safety.
-/

namespace NetworkMonitorModel

/-- STOMP commands, the closed set of §3 of the protocol description, plus
`kInvalid`, the state of a frame whose parse failed. -/
inductive StompCommand
  | kInvalid
  | kAbort
  | kAck
  | kBegin
  | kCommit
  | kConnect
  | kConnected
  | kDisconnect
  | kError
  | kMessage
  | kNack
  | kReceipt
  | kSend
  | kStomp
  | kSubscribe
  | kUnsubscribe
  deriving DecidableEq, Repr

/-- STOMP headers used by the client. -/
inductive StompHeader
  | kAcceptVersion
  | kAck
  | kContentLength
  | kContentType
  | kDestination
  | kHeartBeat
  | kHost
  | kId
  | kLogin
  | kMessageId
  | kPasscode
  | kReceipt
  | kReceiptId
  | kSession
  | kSubscription
  | kTransaction
  | kVersion
  deriving DecidableEq, Repr

/-- Modelled from the spec: the frame codec (`stomp-frame.h` is not part of
the provided sources) reports results from this closed error taxonomy
(§4.A). The client code only ever compares the result against `kOk`. -/
inductive StompError
  | kOk
  | kEmptyInput
  | kUnterminatedFrame
  | kInvalidCommand
  | kNoHeader
  | kEmptyHeaderKey
  | kInvalidHeaderValue
  | kMissingRequiredHeader
  | kContentLengthMismatch
  | kJunkAfterBody
  deriving DecidableEq, Repr

/-- Error codes for the STOMP client (`enum class StompClientError`). -/
inductive StompClientError
  | kOk
  | kUndefinedError
  | kCouldNotCloseWebSocketsConnection
  | kCouldNotConnectToWebSocketsServer
  | kCouldNotSendStompFrame
  | kCouldNotSendSubscribeFrame
  | kUnexpectedCouldNotCreateValidFrame
  | kUnexpectedMessageContentType
  | kUnexpectedSubscriptionMismatch
  | kWebSocketsServerDisconnected
  deriving DecidableEq, Repr

/-- A parsed STOMP frame: command, headers (in order), body. The codec
itself is not part of the provided sources; the client only consumes parsed
frames through `GetCommand`, `GetHeaderValue` and `GetBody`, which are the
structure's fields and `lookupHeader`. -/
structure StompFrame where
  command : StompCommand
  headers : List (StompHeader × String)
  body : String
  deriving DecidableEq, Repr

/-- `StompFrame::GetHeaderValue`: the value of the first occurrence of the
header (first occurrence wins, per STOMP 1.2 duplicate-header rule), empty
when absent. -/
def lookupHeader : List (StompHeader × String) → StompHeader → String
  | [], _ => ""
  | (k, v) :: rest, key => if k = key then v else lookupHeader rest key

/-- `StompClient::Subscription`: the stored endpoint plus the two user
handlers. A C++ `std::function` may be null; the model keeps one Bool per
handler recording whether it is non-null. -/
structure Subscription where
  endpoint : String
  onSubscribeSet : Bool
  onMessageSet : Bool
  deriving DecidableEq, Repr

/-- The observable state of a `StompClient`: the null-ness of the connect
and disconnect handlers, the subscription registry
(`std::unordered_map<std::string, Subscription> subscriptions_`, modelled
as an association list with unique keys), and whether the underlying
WebSocket transport has been connected. -/
structure StompClientState where
  onConnectSet : Bool
  onDisconnectSet : Bool
  subscriptions : List (String × Subscription)
  wsConnected : Bool
  deriving DecidableEq, Repr

/-- `subscriptions_.find`: association-list lookup. -/
def findSub : List (String × Subscription) → String → Option Subscription
  | [], _ => none
  | (k, v) :: rest, key => if k = key then some v else findSub rest key

/-- `subscriptions_.emplace`: inserts only when the key is not present
(the `std::unordered_map::emplace` contract). -/
def emplaceSub (subs : List (String × Subscription)) (key : String)
    (v : Subscription) : List (String × Subscription) :=
  match findSub subs key with
  | some _ => subs
  | none => subs ++ [(key, v)]

/-- A user-callback invocation posted by the client onto its strand. An
invocation is recorded only when the corresponding handler is non-null,
mirroring the `if (handler) { handler(...); }` null checks at every post
site. `onSubscribe`/`onMessage` are tagged with the subscription id whose
handler fires. -/
inductive CallbackCall
  | onConnect (e : StompClientError)
  | onDisconnect (e : StompClientError)
  | onClose (e : StompClientError)
  | onSubscribe (id : String) (e : StompClientError) (arg : String)
  | onMessage (id : String) (e : StompClientError) (msg : String)
  deriving DecidableEq, Repr

/-- `StompClient::HandleSubscriptionMessage`: look up the `subscription`
header in the registry; unknown id → log and drop; known id with a
`destination` different from the stored endpoint → post the subscription's
`onMessage` with `kUnexpectedSubscriptionMismatch` and an empty payload;
otherwise post `onMessage` with `kOk` and the frame body. The registry is
never modified. -/
def handleSubscriptionMessage (s : StompClientState) (frame : StompFrame) :
    StompClientState × List CallbackCall :=
  let subscriptionId := lookupHeader frame.headers StompHeader.kSubscription
  match findSub s.subscriptions subscriptionId with
  | none => (s, [])
  | some subscription =>
    let endpoint := lookupHeader frame.headers StompHeader.kDestination
    if endpoint ≠ subscription.endpoint then
      (s, if subscription.onMessageSet then
            [CallbackCall.onMessage subscriptionId
              StompClientError.kUnexpectedSubscriptionMismatch ""]
          else [])
    else
      (s, if subscription.onMessageSet then
            [CallbackCall.onMessage subscriptionId
              StompClientError.kOk frame.body]
          else [])

/-- `StompClient::HandleSubscriptionReceipt`: look up the `receipt-id`
header in the registry; unknown id → log and drop; known id → post the
subscription's `onSubscribe` with `kOk` and the subscription id. -/
def handleSubscriptionReceipt (s : StompClientState) (frame : StompFrame) :
    StompClientState × List CallbackCall :=
  let subscriptionId := lookupHeader frame.headers StompHeader.kReceiptId
  match findSub s.subscriptions subscriptionId with
  | none => (s, [])
  | some subscription =>
    (s, if subscription.onSubscribeSet then
          [CallbackCall.onSubscribe subscriptionId
            StompClientError.kOk subscriptionId]
        else [])

/-- `StompClient::HandleConnected`: post `onConnect(kOk)`. -/
def handleConnected (s : StompClientState) :
    StompClientState × List CallbackCall :=
  (s, if s.onConnectSet then [CallbackCall.onConnect StompClientError.kOk]
      else [])

/-- The dispatch switch of `StompClient::OnWsMessage` on the frame command:
`CONNECTED`, `ERROR` (log only), `MESSAGE`, `RECEIPT`, and a logging
default branch for every other command. -/
def handleCommand (s : StompClientState) (frame : StompFrame) :
    StompClientState × List CallbackCall :=
  match frame.command with
  | StompCommand.kConnected => handleConnected s
  | StompCommand.kError => (s, [])
  | StompCommand.kMessage => handleSubscriptionMessage s frame
  | StompCommand.kReceipt => handleSubscriptionReceipt s frame
  | _ => (s, [])

/-- `StompClient::OnWsMessage`: parse the inbound WebSocket payload (the
codec's outcome is the pair `error`, `frame`); when the parse failed, post
`onConnect(kUnexpectedCouldNotCreateValidFrame)` — the source has no early
return here — and in every case fall through to the dispatch switch on the
frame's command. -/
def onWsMessage (s : StompClientState) (error : StompError)
    (frame : StompFrame) : StompClientState × List CallbackCall :=
  let pre : List CallbackCall :=
    if error ≠ StompError.kOk then
      if s.onConnectSet then
        [CallbackCall.onConnect
          StompClientError.kUnexpectedCouldNotCreateValidFrame]
      else []
    else []
  let r := handleCommand s frame
  (r.1, pre ++ r.2)

/-- `StompClient::OnWsSendSubscribe`: on a successful local send the
subscription is stored in the registry under its id; on a send failure
nothing is stored and the subscription's `onSubscribe` is posted with
`kCouldNotSendSubscribeFrame` and an empty id. -/
def onWsSendSubscribe (s : StompClientState) (ec : Bool)
    (subscriptionId : String) (subscription : Subscription) :
    StompClientState × List CallbackCall :=
  if !ec then
    ({ s with
        subscriptions := emplaceSub s.subscriptions subscriptionId
          subscription },
     [])
  else
    (s, if subscription.onSubscribeSet then
          [CallbackCall.onSubscribe subscriptionId
            StompClientError.kCouldNotSendSubscribeFrame ""]
        else [])

/-- One hexadecimal digit, lowercase, as emitted by the Boost UUID
stream operator. -/
def hexDigit (n : Nat) : Char :=
  if n < 10 then Char.ofNat (48 + n) else Char.ofNat (87 + n)

/-- Two lowercase hex digits of one byte. -/
def byteToHex (b : Nat) : String :=
  String.mk [hexDigit (b / 16 % 16), hexDigit (b % 16)]

/-- The Boost UUID textual form `xxxxxxxx-xxxx-xxxx-xxxx-xxxxxxxxxxxx` of
16 random bytes. -/
def uuidToString (bytes : List Nat) : String :=
  String.join ((bytes.take 4).map byteToHex) ++ "-" ++
    String.join (((bytes.drop 4).take 2).map byteToHex) ++ "-" ++
    String.join (((bytes.drop 6).take 2).map byteToHex) ++ "-" ++
    String.join (((bytes.drop 8).take 2).map byteToHex) ++ "-" ++
    String.join ((bytes.drop 10).map byteToHex)

/-- `StompClient::GenerateId`: streams a `boost::uuids::random_generator`
UUID to a string. The random bytes are the model's input. -/
def generateId (bytes : List Nat) : String :=
  uuidToString bytes

/-- The synchronous outcome of `StompClient::Subscribe`: the value returned
to the caller, the (unchanged) state, the callback invocations posted
synchronously, and the pending WebSocket send (`ws_.Send` of the SUBSCRIBE
frame, whose completion is handled by `OnWsSendSubscribe`). -/
structure SubscribeResult where
  returnedId : String
  newState : StompClientState
  posted : List CallbackCall
  wsSent : Option (String × Subscription)
  deriving DecidableEq, Repr

/-- `StompClient::Subscribe`: generate a fresh id, assemble the SUBSCRIBE
frame (`frameError` is the builder's reported outcome); when the build
fails, post `onSubscribe(kUnexpectedCouldNotCreateValidFrame, id)` and
return the empty string; otherwise send the frame and return the id. -/
def subscribeCall (s : StompClientState) (bytes : List Nat)
    (frameError : StompError) (subscription : Subscription) :
    SubscribeResult :=
  let subscriptionId := generateId bytes
  if frameError ≠ StompError.kOk then
    { returnedId := ""
      newState := s
      posted :=
        if subscription.onSubscribeSet then
          [CallbackCall.onSubscribe subscriptionId
            StompClientError.kUnexpectedCouldNotCreateValidFrame
            subscriptionId]
        else []
      wsSent := none }
  else
    { returnedId := subscriptionId
      newState := s
      posted := []
      wsSent := some (subscriptionId, subscription) }

/-- `StompClient::Close` together with its completion `OnWsClose`. The
registry is cleared synchronously, then the transport close is initiated;
Modelled from the spec: the WebSocket client (`websocket-client.h` is not
part of the provided sources) fails the close when the transport was never
connected (§4.B: closing before connecting yields the could-not-close
error; the provided mock stream likewise aborts `async_close` on a
non-open stream), and `OnWsClose` maps a failed close to
`kCouldNotCloseWebSocketsConnection` and a clean close to `kOk`, posting
`onClose` when it is non-null. -/
def closeCall (s : StompClientState) (onCloseSet : Bool) :
    StompClientState × List CallbackCall :=
  let s' := { s with subscriptions := [] }
  let closeEc := !s'.wsConnected
  (s',
   if onCloseSet then
     [CallbackCall.onClose
       (if closeEc then StompClientError.kCouldNotCloseWebSocketsConnection
        else StompClientError.kOk)]
   else [])

/-- The asynchronous completions delivered by the WebSocket transport to
the STOMP client's private handlers. `connectResult` carries the transport
outcome and, on success, the outcome of building the STOMP hello frame
(`OnWsConnect`); `sendStompResult` is the hello-send completion
(`OnWsSendStomp`); `sendSubscribeResult` the SUBSCRIBE-send completion
(`OnWsSendSubscribe`); `message` an inbound payload with its parse outcome
(`OnWsMessage`); `disconnect` the transport disconnection
(`OnWsDisconnect`). -/
inductive WsEvent
  | connectResult (ec : Bool) (helloFrameError : StompError)
  | sendStompResult (ec : Bool)
  | sendSubscribeResult (ec : Bool) (subscriptionId : String)
      (subscription : Subscription)
  | message (error : StompError) (frame : StompFrame)
  | disconnect (ec : Bool)
  deriving DecidableEq, Repr

/-- Result of one transport completion: the new client state, the posted
user-callback invocations, and whether the STOMP hello frame was sent. -/
structure StepResult where
  state : StompClientState
  calls : List CallbackCall
  sentHello : Bool
  deriving DecidableEq, Repr

/-- One transport completion, dispatched to the matching private handler of
the source. -/
def stepWsEvent (s : StompClientState) : WsEvent → StepResult
  | WsEvent.connectResult ec helloFrameError =>
    if ec then
      { state := s
        calls :=
          if s.onConnectSet then
            [CallbackCall.onConnect
              StompClientError.kCouldNotConnectToWebSocketsServer]
          else []
        sentHello := false }
    else
      let s' := { s with wsConnected := true }
      if helloFrameError ≠ StompError.kOk then
        { state := s'
          calls :=
            if s.onConnectSet then
              [CallbackCall.onConnect
                StompClientError.kUnexpectedCouldNotCreateValidFrame]
            else []
          sentHello := false }
      else
        { state := s', calls := [], sentHello := true }
  | WsEvent.sendStompResult ec =>
    { state := s
      calls :=
        if ec then
          if s.onConnectSet then
            [CallbackCall.onConnect StompClientError.kCouldNotSendStompFrame]
          else []
        else []
      sentHello := false }
  | WsEvent.sendSubscribeResult ec subscriptionId subscription =>
    let r := onWsSendSubscribe s ec subscriptionId subscription
    { state := r.1, calls := r.2, sentHello := false }
  | WsEvent.message error frame =>
    let r := onWsMessage s error frame
    { state := r.1, calls := r.2, sentHello := false }
  | WsEvent.disconnect ec =>
    { state := s
      calls :=
        if s.onDisconnectSet then
          [CallbackCall.onDisconnect
            (if ec then StompClientError.kWebSocketsServerDisconnected
             else StompClientError.kOk)]
        else []
      sentHello := false }

/-- A sequence of transport completions, with the posted invocations
concatenated in order. -/
def runWsEvents (s : StompClientState) :
    List WsEvent → StompClientState × List CallbackCall
  | [] => (s, [])
  | ev :: rest =>
    let r := stepWsEvent s ev
    let tail := runWsEvents r.state rest
    (tail.1, r.calls ++ tail.2)

/-- A subscription with both of its handlers null. -/
def eraseSubscriptionHandlers (subscription : Subscription) : Subscription :=
  { subscription with onSubscribeSet := false, onMessageSet := false }

/-- The same client state with every user handler null. -/
def eraseClientHandlers (s : StompClientState) : StompClientState :=
  { s with
      onConnectSet := false
      onDisconnectSet := false
      subscriptions := s.subscriptions.map
        (fun p => (p.1, eraseSubscriptionHandlers p.2)) }

/-- The same transport completion with every carried handler null. -/
def eraseEventHandlers : WsEvent → WsEvent
  | WsEvent.sendSubscribeResult ec subscriptionId subscription =>
    WsEvent.sendSubscribeResult ec subscriptionId
      (eraseSubscriptionHandlers subscription)
  | ev => ev

/-- Error codes for the monitor (`enum class NetworkMonitorError`). -/
inductive NetworkMonitorError
  | kOk
  | kUndefinedError
  | kCouldNotConnectToStompClient
  | kCouldNotParsePassengerEvent
  | kCouldNotRecordPassengerEvent
  | kCouldNotSubscribeToPassengerEvents
  | kFailedNetworkLayoutFileDownload
  | kFailedNetworkLayoutFileParsing
  | kFailedTransportNetworkConstruction
  | kMissingCaCertFile
  | kMissingNetworkLayoutFile
  | kStompClientDisconnected
  deriving DecidableEq, Repr

/-- A passenger event: station, tap direction (`in` is `isIn = true`),
timestamp. -/
structure PassengerEvent where
  stationId : String
  isIn : Bool
  timestamp : Nat
  deriving DecidableEq, Repr

/-- The observable state of a `NetworkMonitor`: the last recorded error
code (`lastErrorCode_`), the per-station passenger counts of the transport
network, and whether `Stop` was requested on the I/O context. -/
structure MonitorState where
  lastErrorCode : NetworkMonitorError
  network : List (String × Int)
  stopped : Bool
  deriving DecidableEq, Repr

/-- The freshly constructed monitor: `lastErrorCode_` is member-initialized
to `kUndefinedError` and the network holds no events yet. -/
def initialMonitorState (network : List (String × Int)) : MonitorState :=
  { lastErrorCode := NetworkMonitorError.kUndefinedError
    network := network
    stopped := false }

/-- Modelled from the spec: `TransportNetwork::RecordPassengerEvent`
(`transport-network.h` is not part of the provided sources) adds `+1` to
the station's passenger count on an `in` event and `-1` on an `out` event,
and rejects an unknown station id without any mutation (§4.D). Returns the
success flag and the resulting counts. -/
def recordPassengerEvent (network : List (String × Int))
    (event : PassengerEvent) : Bool × List (String × Int) :=
  if network.any (fun p => p.1 == event.stationId) then
    (true,
     network.map (fun p =>
       if p.1 = event.stationId then
         (p.1, p.2 + (if event.isIn then 1 else -1))
       else p))
  else
    (false, network)

/-- `NetworkMonitor::OnMessage`: the subscription payload is parsed as a
passenger-event JSON document (`parsed` is the parser's outcome); a parse
failure records `kCouldNotParsePassengerEvent` and returns; otherwise the
event is recorded, and a recording failure records
`kCouldNotRecordPassengerEvent`. -/
def monitorOnMessage (s : MonitorState) (parsed : Option PassengerEvent) :
    MonitorState :=
  match parsed with
  | none =>
    { s with lastErrorCode := NetworkMonitorError.kCouldNotParsePassengerEvent }
  | some event =>
    let r := recordPassengerEvent s.network event
    if r.1 then
      { s with network := r.2 }
    else
      { s with
          network := r.2
          lastErrorCode := NetworkMonitorError.kCouldNotRecordPassengerEvent }

/-- The event processing performed while the I/O context runs: each
delivered subscription payload goes through `OnMessage`. -/
def monitorRunEvents (s : MonitorState) :
    List (Option PassengerEvent) → MonitorState
  | [] => s
  | parsed :: rest => monitorRunEvents (monitorOnMessage s parsed) rest

/-- `NetworkMonitor::Run()`: resets `lastErrorCode_` to `kOk`, then runs
the I/O context, which processes the delivered events. -/
def monitorRun (s : MonitorState)
    (events : List (Option PassengerEvent)) : MonitorState :=
  monitorRunEvents { s with lastErrorCode := NetworkMonitorError.kOk } events

/-- `NetworkMonitor::Run(runFor)`: identical to `Run()` except that the
I/O context stops after the wall-clock duration; the events delivered
within the window are the model's input. -/
def monitorRunFor (s : MonitorState) (_runForMs : Nat)
    (events : List (Option PassengerEvent)) : MonitorState :=
  monitorRunEvents { s with lastErrorCode := NetworkMonitorError.kOk } events

/-- `NetworkMonitor::Stop()`: stops the I/O context and deliberately leaves
`lastErrorCode_` untouched. -/
def monitorStop (s : MonitorState) : MonitorState :=
  { s with stopped := true }

/-! ## Helper lemmas -/

/-- A generated id has the 36-character UUID shape, hence is never empty. -/
theorem generateId_length (bytes : List Nat) :
    0 < (generateId bytes).length := by
  have hd : ("-" : String).length = 1 := rfl
  simp only [generateId, uuidToString, String.length_append, hd]
  omega

/-- `GenerateId` never returns the empty string. -/
theorem generateId_ne_empty (bytes : List Nat) : generateId bytes ≠ "" := by
  intro h
  have hl := generateId_length bytes
  rw [h] at hl
  simp at hl

/-- The dispatch switch never mutates the client state. -/
theorem handleSubscriptionMessage_fst (s : StompClientState)
    (frame : StompFrame) : (handleSubscriptionMessage s frame).1 = s := by
  unfold handleSubscriptionMessage
  cases h : findSub s.subscriptions
      (lookupHeader frame.headers StompHeader.kSubscription) with
  | none => simp [h]
  | some subscription =>
    simp only [h]
    split <;> rfl

/-- The receipt handler never mutates the client state. -/
theorem handleSubscriptionReceipt_fst (s : StompClientState)
    (frame : StompFrame) : (handleSubscriptionReceipt s frame).1 = s := by
  unfold handleSubscriptionReceipt
  cases h : findSub s.subscriptions
      (lookupHeader frame.headers StompHeader.kReceiptId) with
  | none => simp [h]
  | some subscription => simp [h]

/-- The command switch of `OnWsMessage` never mutates the client state. -/
theorem handleCommand_fst (s : StompClientState) (frame : StompFrame) :
    (handleCommand s frame).1 = s := by
  unfold handleCommand
  cases frame.command <;>
    simp [handleConnected, handleSubscriptionMessage_fst,
      handleSubscriptionReceipt_fst]

/-- Lookup in a registry whose handlers were all erased. -/
theorem findSub_map_erase (subs : List (String × Subscription))
    (key : String) :
    findSub (subs.map (fun p => (p.1, eraseSubscriptionHandlers p.2))) key =
      (findSub subs key).map eraseSubscriptionHandlers := by
  induction subs with
  | nil => rfl
  | cons p rest ih =>
    obtain ⟨k, v⟩ := p
    by_cases hk : k = key
    · simp [findSub, hk]
    · simp [findSub, hk, ih]

/-- Insertion commutes with erasing every handler. -/
theorem emplaceSub_map_erase (subs : List (String × Subscription))
    (key : String) (v : Subscription) :
    emplaceSub (subs.map (fun p => (p.1, eraseSubscriptionHandlers p.2))) key
        (eraseSubscriptionHandlers v) =
      (emplaceSub subs key v).map
        (fun p => (p.1, eraseSubscriptionHandlers p.2)) := by
  unfold emplaceSub
  rw [findSub_map_erase]
  cases h : findSub subs key <;> simp

/-- Appending a fresh key makes it found. -/
theorem findSub_append_self (subs : List (String × Subscription))
    (key : String) (v : Subscription) (h : findSub subs key = none) :
    findSub (subs ++ [(key, v)]) key = some v := by
  induction subs with
  | nil => simp [findSub]
  | cons p rest ih =>
    obtain ⟨k, v'⟩ := p
    by_cases hk : k = key
    · simp [findSub, hk] at h
    · simp [findSub, hk] at h ⊢
      exact ih h

/-- With every handler erased, the command switch posts nothing. -/
theorem handleCommand_erased_calls (s : StompClientState)
    (frame : StompFrame) :
    (handleCommand (eraseClientHandlers s) frame).2 = [] := by
  unfold handleCommand
  cases frame.command <;>
    simp [handleConnected, eraseClientHandlers, handleSubscriptionMessage,
      handleSubscriptionReceipt, findSub_map_erase]
  case kMessage =>
    cases h : findSub s.subscriptions
        (lookupHeader frame.headers StompHeader.kSubscription) <;>
      simp [h, eraseSubscriptionHandlers]
  case kReceipt =>
    cases h : findSub s.subscriptions
        (lookupHeader frame.headers StompHeader.kReceiptId) <;>
      simp [h, eraseSubscriptionHandlers]

/-! ## Claim theorems -/

/-- C1: For every inbound MESSAGE frame handled by the STOMP client: an
unknown `subscription` header is logged and dropped with no user callback;
a known subscription whose stored endpoint differs from the frame's
`destination` header has its `on_message` handler invoked with
`kUnexpectedSubscriptionMismatch` and an empty payload while remaining in
the registry; otherwise the frame body is delivered to `on_message` with
`kOk`. -/
theorem stompClient_message_dispatch (s : StompClientState)
    (frame : StompFrame) :
    (findSub s.subscriptions
        (lookupHeader frame.headers StompHeader.kSubscription) = none →
      handleSubscriptionMessage s frame = (s, [])) ∧
    (∀ subscription,
      findSub s.subscriptions
          (lookupHeader frame.headers StompHeader.kSubscription) =
        some subscription →
      subscription.onMessageSet = true →
      (lookupHeader frame.headers StompHeader.kDestination ≠
          subscription.endpoint →
        handleSubscriptionMessage s frame =
          (s, [CallbackCall.onMessage
                (lookupHeader frame.headers StompHeader.kSubscription)
                StompClientError.kUnexpectedSubscriptionMismatch ""]) ∧
        findSub (handleSubscriptionMessage s frame).1.subscriptions
            (lookupHeader frame.headers StompHeader.kSubscription) =
          some subscription) ∧
      (lookupHeader frame.headers StompHeader.kDestination =
          subscription.endpoint →
        handleSubscriptionMessage s frame =
          (s, [CallbackCall.onMessage
                (lookupHeader frame.headers StompHeader.kSubscription)
                StompClientError.kOk frame.body]))) := by
  constructor
  · intro h
    simp [handleSubscriptionMessage, h]
  · intro subscription hfind hset
    constructor
    · intro hne
      have hmsg : handleSubscriptionMessage s frame =
          (s, [CallbackCall.onMessage
                (lookupHeader frame.headers StompHeader.kSubscription)
                StompClientError.kUnexpectedSubscriptionMismatch ""]) := by
        simp [handleSubscriptionMessage, hfind, hne, hset]
      exact ⟨hmsg, by rw [hmsg]; exact hfind⟩
    · intro heq
      simp [handleSubscriptionMessage, hfind, heq, hset]

/-- C1 witness: a MESSAGE frame for a registered subscription with a
matching destination delivers the body with `kOk`. -/
theorem stompClient_message_dispatch_witness :
    handleSubscriptionMessage
      ⟨true, true, [("sub-1", ⟨"/passengers", true, true⟩)], true⟩
      ⟨StompCommand.kMessage,
        [(StompHeader.kSubscription, "sub-1"),
         (StompHeader.kDestination, "/passengers")], "payload"⟩ =
      (⟨true, true, [("sub-1", ⟨"/passengers", true, true⟩)], true⟩,
       [CallbackCall.onMessage "sub-1" StompClientError.kOk "payload"]) :=
  ((stompClient_message_dispatch _ _).2 ⟨"/passengers", true, true⟩
    (by decide) rfl).2 (by decide)

/-- C3: `Subscribe` returns a non-empty subscription id if and only if the
SUBSCRIBE frame builder reported `kOk`; otherwise it returns the empty
string. -/
theorem stompClient_subscribe_return_iff (s : StompClientState)
    (bytes : List Nat) (frameError : StompError)
    (subscription : Subscription) :
    ((subscribeCall s bytes frameError subscription).returnedId ≠ "" ↔
      frameError = StompError.kOk) ∧
    (frameError ≠ StompError.kOk →
      (subscribeCall s bytes frameError subscription).returnedId = "") := by
  by_cases h : frameError = StompError.kOk
  · constructor
    · simp only [subscribeCall, h]
      simp [generateId_ne_empty bytes]
    · intro hne
      exact absurd h hne
  · constructor
    · simp [subscribeCall, h]
    · intro _
      simp [subscribeCall, h]

/-- C3 witness: with a constructible frame the returned id is non-empty;
with a failed build it is empty. -/
theorem stompClient_subscribe_return_iff_witness :
    (subscribeCall ⟨true, true, [], true⟩ [0, 1, 2, 3]
        StompError.kOk ⟨"/passengers", true, true⟩).returnedId ≠ "" ∧
    (subscribeCall ⟨true, true, [], true⟩ [0, 1, 2, 3]
        StompError.kMissingRequiredHeader
        ⟨"/passengers", true, true⟩).returnedId = "" :=
  ⟨(stompClient_subscribe_return_iff _ [0, 1, 2, 3] _ _).1.mpr rfl,
   (stompClient_subscribe_return_iff _ [0, 1, 2, 3] _ _).2 (by decide)⟩

/-- C4: When the SUBSCRIBE frame's local send succeeds, the subscription is
stored in the registry under the generated id (no server acknowledgement is
involved); when the local send fails, nothing is stored and the
subscription's `onSubscribe` handler fires with
`kCouldNotSendSubscribeFrame` and an empty id. -/
theorem stompClient_send_subscribe_storage (s : StompClientState)
    (subscriptionId : String) (subscription : Subscription) :
    (findSub s.subscriptions subscriptionId = none →
      onWsSendSubscribe s false subscriptionId subscription =
        ({ s with subscriptions :=
            s.subscriptions ++ [(subscriptionId, subscription)] }, []) ∧
      findSub (onWsSendSubscribe s false subscriptionId
          subscription).1.subscriptions subscriptionId =
        some subscription) ∧
    (subscription.onSubscribeSet = true →
      onWsSendSubscribe s true subscriptionId subscription =
        (s, [CallbackCall.onSubscribe subscriptionId
              StompClientError.kCouldNotSendSubscribeFrame ""])) := by
  constructor
  · intro hnone
    have hemp : emplaceSub s.subscriptions subscriptionId subscription =
        s.subscriptions ++ [(subscriptionId, subscription)] := by
      simp [emplaceSub, hnone]
    constructor
    · simp [onWsSendSubscribe, hemp]
    · simp only [onWsSendSubscribe, Bool.not_false, if_pos]
      simp only [hemp]
      exact findSub_append_self _ _ _ hnone
  · intro hset
    simp [onWsSendSubscribe, hset]

/-- C4 witness: a successful send stores the subscription; a failed send
stores nothing and fires `onSubscribe(kCouldNotSendSubscribeFrame, "")`. -/
theorem stompClient_send_subscribe_storage_witness :
    findSub (onWsSendSubscribe ⟨true, true, [], true⟩ false "sub-1"
        ⟨"/passengers", true, true⟩).1.subscriptions "sub-1" =
      some ⟨"/passengers", true, true⟩ ∧
    onWsSendSubscribe ⟨true, true, [], true⟩ true "sub-1"
        ⟨"/passengers", true, true⟩ =
      (⟨true, true, [], true⟩,
       [CallbackCall.onSubscribe "sub-1"
         StompClientError.kCouldNotSendSubscribeFrame ""]) :=
  ⟨((stompClient_send_subscribe_storage _ "sub-1" _).1 (by decide)).2,
   (stompClient_send_subscribe_storage _ "sub-1" _).2 rfl⟩

/-- C6: An inbound RECEIPT frame whose `receipt-id` matches a stored
subscription fires that subscription's `onSubscribe` handler exactly once
with `(kOk, id)` where the id is the matched subscription id; a RECEIPT
matching no stored subscription is logged and dropped with no user
callback. -/
theorem stompClient_receipt_dispatch (s : StompClientState)
    (frame : StompFrame) :
    (∀ subscription,
      findSub s.subscriptions
          (lookupHeader frame.headers StompHeader.kReceiptId) =
        some subscription →
      subscription.onSubscribeSet = true →
      handleSubscriptionReceipt s frame =
        (s, [CallbackCall.onSubscribe
              (lookupHeader frame.headers StompHeader.kReceiptId)
              StompClientError.kOk
              (lookupHeader frame.headers StompHeader.kReceiptId)])) ∧
    (findSub s.subscriptions
        (lookupHeader frame.headers StompHeader.kReceiptId) = none →
      handleSubscriptionReceipt s frame = (s, [])) := by
  constructor
  · intro subscription hfind hset
    simp [handleSubscriptionReceipt, hfind, hset]
  · intro hnone
    simp [handleSubscriptionReceipt, hnone]

/-- C6 witness: a RECEIPT with a matching `receipt-id` fires
`onSubscribe(kOk, id)`; one with an unknown id is dropped. -/
theorem stompClient_receipt_dispatch_witness :
    handleSubscriptionReceipt
      ⟨true, true, [("sub-1", ⟨"/passengers", true, true⟩)], true⟩
      ⟨StompCommand.kReceipt, [(StompHeader.kReceiptId, "sub-1")], ""⟩ =
      (⟨true, true, [("sub-1", ⟨"/passengers", true, true⟩)], true⟩,
       [CallbackCall.onSubscribe "sub-1" StompClientError.kOk "sub-1"]) ∧
    handleSubscriptionReceipt
      ⟨true, true, [("sub-1", ⟨"/passengers", true, true⟩)], true⟩
      ⟨StompCommand.kReceipt, [(StompHeader.kReceiptId, "sub-2")], ""⟩ =
      (⟨true, true, [("sub-1", ⟨"/passengers", true, true⟩)], true⟩, []) :=
  ⟨(stompClient_receipt_dispatch _ _).1 ⟨"/passengers", true, true⟩
      (by decide) rfl,
   (stompClient_receipt_dispatch _ _).2 (by decide)⟩

/-- C2 counterexample: an inbound WebSocket message that fails to parse is
not merely logged and dropped — with a non-null `onConnect` handler the
client posts `onConnect(kUnexpectedCouldNotCreateValidFrame)`, so a user
callback is invoked for the malformed message. -/
theorem stompClient_malformed_frame_counterexample :
    (onWsMessage ⟨true, true, [], true⟩ StompError.kUnterminatedFrame
        ⟨StompCommand.kInvalid, [], ""⟩).2 =
      [CallbackCall.onConnect
        StompClientError.kUnexpectedCouldNotCreateValidFrame] := by
  decide

/-- C2 (amended): on an inbound WebSocket message that fails to parse, the
STOMP client logs the error and posts
`onConnect(kUnexpectedCouldNotCreateValidFrame)` when that handler is set;
it does not return early, so dispatch on the malformed frame's command
still occurs (contributing the switch's output); the connection stays up
and the subscription registry is untouched. -/
theorem stompClient_malformed_frame_behavior (s : StompClientState)
    (error : StompError) (frame : StompFrame)
    (h : error ≠ StompError.kOk) :
    onWsMessage s error frame =
      (s, (if s.onConnectSet then
            [CallbackCall.onConnect
              StompClientError.kUnexpectedCouldNotCreateValidFrame]
           else []) ++ (handleCommand s frame).2) ∧
    (onWsMessage s error frame).1.wsConnected = s.wsConnected ∧
    (onWsMessage s error frame).1.subscriptions = s.subscriptions := by
  have hfst := handleCommand_fst s frame
  have hmain : onWsMessage s error frame =
      (s, (if s.onConnectSet then
            [CallbackCall.onConnect
              StompClientError.kUnexpectedCouldNotCreateValidFrame]
           else []) ++ (handleCommand s frame).2) := by
    simp [onWsMessage, h, hfst]
  exact ⟨hmain, by rw [hmain], by rw [hmain]⟩

/-- C2 witness: the amended behavior at a concrete malformed message. -/
theorem stompClient_malformed_frame_behavior_witness :
    onWsMessage ⟨false, false, [], true⟩ StompError.kEmptyInput
        ⟨StompCommand.kInvalid, [], ""⟩ =
      (⟨false, false, [], true⟩,
       (if (false : Bool) then
         [CallbackCall.onConnect
           StompClientError.kUnexpectedCouldNotCreateValidFrame]
        else []) ++
        (handleCommand ⟨false, false, [], true⟩
          ⟨StompCommand.kInvalid, [], ""⟩).2) ∧
    (onWsMessage ⟨false, false, [], true⟩ StompError.kEmptyInput
        ⟨StompCommand.kInvalid, [], ""⟩).1.wsConnected = true ∧
    (onWsMessage ⟨false, false, [], true⟩ StompError.kEmptyInput
        ⟨StompCommand.kInvalid, [], ""⟩).1.subscriptions = [] :=
  stompClient_malformed_frame_behavior ⟨false, false, [], true⟩
    StompError.kEmptyInput ⟨StompCommand.kInvalid, [], ""⟩ (by decide)

/-- C5: when the WebSocket transport fails before any CONNECTED frame, the
client's delivered completion is a single failed connect; processing it
fires `onConnect(kCouldNotConnectToWebSocketsServer)` exactly once, and no
`onDisconnect` invocation is posted. -/
theorem stompClient_ws_failure_connect_callback (s : StompClientState)
    (helloFrameError : StompError) (h : s.onConnectSet = true) :
    runWsEvents s [WsEvent.connectResult true helloFrameError] =
      (s, [CallbackCall.onConnect
            StompClientError.kCouldNotConnectToWebSocketsServer]) ∧
    ∀ e, CallbackCall.onDisconnect e ∉
      (runWsEvents s [WsEvent.connectResult true helloFrameError]).2 := by
  constructor
  · simp [runWsEvents, stepWsEvent, h]
  · intro e
    simp [runWsEvents, stepWsEvent, h]

/-- C5 witness: the failure completion at a concrete client state. -/
theorem stompClient_ws_failure_connect_callback_witness :
    runWsEvents ⟨true, true, [], false⟩
        [WsEvent.connectResult true StompError.kOk] =
      (⟨true, true, [], false⟩,
       [CallbackCall.onConnect
         StompClientError.kCouldNotConnectToWebSocketsServer]) :=
  (stompClient_ws_failure_connect_callback ⟨true, true, [], false⟩
    StompError.kOk rfl).1

/-- C7: every `Close` clears the subscription registry synchronously, so a
RECEIPT arriving afterwards is dropped as an unknown subscription; and a
`Close` issued before the transport was ever connected fires the supplied
`onClose` handler exactly once with `kCouldNotCloseWebSocketsConnection`
and no other user callback. -/
theorem stompClient_close_contract (s : StompClientState)
    (onCloseSet : Bool) :
    ((closeCall s onCloseSet).1.subscriptions = [] ∧
     ∀ frame, handleSubscriptionReceipt (closeCall s onCloseSet).1 frame =
       ((closeCall s onCloseSet).1, [])) ∧
    (s.wsConnected = false →
      (closeCall s true).2 =
        [CallbackCall.onClose
          StompClientError.kCouldNotCloseWebSocketsConnection]) := by
  refine ⟨⟨rfl, ?_⟩, ?_⟩
  · intro frame
    simp [handleSubscriptionReceipt, closeCall, findSub]
  · intro h
    simp [closeCall, h]

/-- C7 witness: `Close` before `Connect` on a client holding one pending
subscription. -/
theorem stompClient_close_contract_witness :
    (closeCall ⟨false, false, [("sub-1", ⟨"/passengers", true, true⟩)],
        false⟩ true).1.subscriptions = [] ∧
    (closeCall ⟨false, false, [("sub-1", ⟨"/passengers", true, true⟩)],
        false⟩ true).2 =
      [CallbackCall.onClose
        StompClientError.kCouldNotCloseWebSocketsConnection] :=
  ⟨(stompClient_close_contract
      ⟨false, false, [("sub-1", ⟨"/passengers", true, true⟩)], false⟩
      true).1.1,
   (stompClient_close_contract
      ⟨false, false, [("sub-1", ⟨"/passengers", true, true⟩)], false⟩
      true).2 rfl⟩

/-- C8: a subscription payload that cannot be parsed as a passenger-event
JSON document records `kCouldNotParsePassengerEvent` as the last error,
leaves every station's passenger count unchanged, does not stop the event
loop, and subsequent events are still processed. -/
theorem monitor_malformed_event_handling (s : MonitorState) :
    (monitorOnMessage s none).lastErrorCode =
      NetworkMonitorError.kCouldNotParsePassengerEvent ∧
    (monitorOnMessage s none).network = s.network ∧
    (monitorOnMessage s none).stopped = s.stopped ∧
    ∀ events, monitorRunEvents s (none :: events) =
      monitorRunEvents (monitorOnMessage s none) events :=
  ⟨rfl, rfl, rfl, fun _ => rfl⟩

/-- C9: `GetLastErrorCode` is `kUndefinedError` right after construction;
both `Run()` and `Run(duration)` reset the last error code to `kOk` before
processing events; `Stop()` leaves the last error code unchanged; and the
error code never reverts to `kOk` during a run, so `kOk` after `Run`
returns means no error was recorded by that run. -/
theorem monitor_last_error_lifecycle :
    (∀ network, (initialMonitorState network).lastErrorCode =
      NetworkMonitorError.kUndefinedError) ∧
    (∀ s events, monitorRun s events =
      monitorRunEvents
        { s with lastErrorCode := NetworkMonitorError.kOk } events) ∧
    (∀ s runForMs events, monitorRunFor s runForMs events =
      monitorRunEvents
        { s with lastErrorCode := NetworkMonitorError.kOk } events) ∧
    (∀ s, (monitorStop s).lastErrorCode = s.lastErrorCode) ∧
    (∀ s events,
      (monitorRunEvents s events).lastErrorCode = NetworkMonitorError.kOk →
      s.lastErrorCode = NetworkMonitorError.kOk) := by
  refine ⟨fun _ => rfl, fun _ _ => rfl, fun _ _ _ => rfl, fun _ => rfl, ?_⟩
  intro s events
  induction events generalizing s with
  | nil =>
    intro h
    simpa [monitorRunEvents] using h
  | cons parsed rest ih =>
    intro h
    have h2 := ih (monitorOnMessage s parsed)
      (by simpa [monitorRunEvents] using h)
    cases parsed with
    | none => simp [monitorOnMessage] at h2
    | some event =>
      by_cases hr : (recordPassengerEvent s.network event).1
      · simpa [monitorOnMessage, hr] using h2
      · simp [monitorOnMessage, hr] at h2

/-- C9 witness: the initial error code, and the no-error-recorded reading
of `kOk` at a concrete state and run. -/
theorem monitor_last_error_lifecycle_witness :
    (initialMonitorState []).lastErrorCode =
      NetworkMonitorError.kUndefinedError ∧
    ({ lastErrorCode := NetworkMonitorError.kOk, network := [],
       stopped := false } : MonitorState).lastErrorCode =
      NetworkMonitorError.kOk :=
  ⟨monitor_last_error_lifecycle.1 [],
   monitor_last_error_lifecycle.2.2.2.2
     { lastErrorCode := NetworkMonitorError.kOk, network := [],
       stopped := false } [] rfl⟩

/-- C10: null user handlers are safe: with every handler null, each
transport completion, each `Subscribe` call and each `Close` call posts no
callback invocation at all, while the operation's effect on the
client state (registry contents, transport flag, returned subscription id,
outbound sends) is identical to the effect with handlers installed. -/
theorem stompClient_null_handler_safety :
    (∀ s ev,
      (stepWsEvent (eraseClientHandlers s) (eraseEventHandlers ev)).calls =
        [] ∧
      (stepWsEvent (eraseClientHandlers s) (eraseEventHandlers ev)).state =
        eraseClientHandlers (stepWsEvent s ev).state ∧
      (stepWsEvent (eraseClientHandlers s)
          (eraseEventHandlers ev)).sentHello =
        (stepWsEvent s ev).sentHello) ∧
    (∀ s bytes frameError subscription,
      (subscribeCall s bytes frameError
          (eraseSubscriptionHandlers subscription)).returnedId =
        (subscribeCall s bytes frameError subscription).returnedId ∧
      (subscribeCall s bytes frameError
          (eraseSubscriptionHandlers subscription)).posted = []) ∧
    (∀ s,
      (closeCall (eraseClientHandlers s) false).2 = [] ∧
      (closeCall (eraseClientHandlers s) false).1 =
        eraseClientHandlers (closeCall s false).1) := by
  refine ⟨?_, ?_, ?_⟩
  · intro s ev
    cases ev with
    | connectResult ec helloFrameError =>
      cases ec with
      | false =>
        by_cases herr : helloFrameError = StompError.kOk <;>
          simp [stepWsEvent, eraseEventHandlers, eraseClientHandlers, herr]
      | true =>
        simp [stepWsEvent, eraseEventHandlers, eraseClientHandlers]
    | sendStompResult ec =>
      cases ec <;>
        simp [stepWsEvent, eraseEventHandlers, eraseClientHandlers]
    | sendSubscribeResult ec subscriptionId subscription =>
      cases ec with
      | false =>
        refine ⟨?_, ?_, rfl⟩
        · simp [stepWsEvent, eraseEventHandlers, onWsSendSubscribe]
        · simp only [stepWsEvent, eraseEventHandlers, onWsSendSubscribe,
            Bool.not_false, if_pos]
          simp [eraseClientHandlers, emplaceSub_map_erase]
      | true =>
        simp [stepWsEvent, eraseEventHandlers, onWsSendSubscribe,
          eraseSubscriptionHandlers]
    | message error frame =>
      have hcalls := handleCommand_erased_calls s frame
      have hfst := handleCommand_fst s frame
      have hfstE := handleCommand_fst (eraseClientHandlers s) frame
      refine ⟨?_, ?_, rfl⟩
      · simp [stepWsEvent, eraseEventHandlers, onWsMessage,
          eraseClientHandlers, hcalls]
        simpa [eraseClientHandlers] using hcalls
      · simp [stepWsEvent, eraseEventHandlers, onWsMessage, hfst, hfstE]
    | disconnect ec =>
      simp [stepWsEvent, eraseEventHandlers, eraseClientHandlers]
  · intro s bytes frameError subscription
    by_cases h : frameError = StompError.kOk <;>
      simp [subscribeCall, h, eraseSubscriptionHandlers]
  · intro s
    exact ⟨rfl, by simp [closeCall, eraseClientHandlers]⟩

/-- C10 witness: a transport disconnect completion delivered to a client
with all handlers null posts nothing. -/
theorem stompClient_null_handler_safety_witness :
    (stepWsEvent (eraseClientHandlers ⟨true, true, [], true⟩)
        (eraseEventHandlers (WsEvent.disconnect true))).calls = [] :=
  (stompClient_null_handler_safety.1 ⟨true, true, [], true⟩
    (WsEvent.disconnect true)).1

